import Mathlib

/-!
Verification of the `rust-simpledb` storage/execution engine specification.

This file shallowly embeds the relevant parts of the Rust sources
(`src/storage/table/value.rs`, `src/storage/io/page.rs`,
`src/storage/io/disk_manager.rs`, `src/storage/io/buffer_manager.rs`,
`src/storage/database.rs`, `src/storage/table.rs`, `src/planner.rs`,
`src/executor.rs`) and proves or refutes the specification claims about them.

Modelling conventions:
* machine integer `i32` payloads are modelled as `Int` (no claim depends on
  wrap-around arithmetic);
* `f64` payloads are modelled as `Rat`: every claim in scope only exercises
  order/equality of float values obtained from literals, where `i32 → f64`
  promotion is exact and `NaN` never arises, so `partial_cmp` agrees with the
  rational order;
* fallible Rust code returning `Result<T, DBError>` is modelled with
  `Except DBError T`;
* code that can panic (`todo!()`, out-of-range indexing) is modelled with an
  outer `Option`: `none` is a panic, `some r` is a normal return of `r`;
* `HashMap`s are modelled as association lists (iteration order is irrelevant
  to every claim treated here).
-/

namespace SimpleDB

/-- Error taxonomy from `src/error.rs` (`DBError`).  Each variant carries its
message string, as in the source. -/
inductive DBError where
  | io (msg : String)
  | parse (msg : String)
  | planner (msg : String)
  | schema (msg : String)
  | execution (msg : String)
  | notFound (msg : String)
  | other (msg : String)
deriving DecidableEq

/-- `Value` from `src/storage/table/value.rs`: `Int(i32) | Float(f64) |
String(String) | Boolean(bool) | Null`.  `i32` is modelled as `Int`, `f64` as
`Rat` (see the header comment). -/
inductive Value where
  | int (n : Int)
  | float (q : Rat)
  | string (s : String)
  | boolean (b : Bool)
  | null
deriving DecidableEq

/-- `DataType` from `src/storage/table/value.rs`: `Int(u64) | Varchar(u64)`. -/
inductive DataType where
  | int (width : Nat)
  | varchar (maxLen : Nat)
deriving DecidableEq

/-- `ColumnDef` from `src/storage/table/value.rs`. -/
structure ColumnDef where
  name : String
  data_type : DataType
  not_null : Bool
  unique : Bool
  is_primary : Bool
deriving DecidableEq

/-- `RecordId` from `src/storage/table/record.rs`: `(page_id, slot)`. -/
structure RecordId where
  page_id : Nat
  slot : Nat
deriving DecidableEq

/-- Runtime `Record` from `src/storage/table/record.rs`: an optional id plus
the row values. -/
structure Record where
  id : Option RecordId
  values : List Value
deriving DecidableEq

namespace Value

/-- `Value::add` (value.rs): Int/Float arithmetic with Int↔Float promotion;
other operand kinds are an Execution error. -/
def add : Value → Value → Except DBError Value
  | int a, int b => .ok (int (a + b))
  | float a, float b => .ok (float (a + b))
  | int a, float b => .ok (float ((a : Rat) + b))
  | float a, int b => .ok (float (a + (b : Rat)))
  | _, _ => .error (.execution "类型不兼容，无法相加")

/-- `Value::subtract` (value.rs). -/
def subtract : Value → Value → Except DBError Value
  | int a, int b => .ok (int (a - b))
  | float a, float b => .ok (float (a - b))
  | int a, float b => .ok (float ((a : Rat) - b))
  | float a, int b => .ok (float (a - (b : Rat)))
  | _, _ => .error (.execution "类型不兼容，无法相减")

/-- `Value::multiply` (value.rs). -/
def multiply : Value → Value → Except DBError Value
  | int a, int b => .ok (int (a * b))
  | float a, float b => .ok (float (a * b))
  | int a, float b => .ok (float ((a : Rat) * b))
  | float a, int b => .ok (float (a * (b : Rat)))
  | _, _ => .error (.execution "类型不兼容，无法相乘")

/-- `Value::divide` (value.rs): fails on a zero divisor.  Integer division is
Rust `i32` division, i.e. truncation toward zero (`Int.tdiv`). -/
def divide : Value → Value → Except DBError Value
  | int a, int b =>
    if b = 0 then .error (.execution "除数不能为零") else .ok (int (a.tdiv b))
  | float a, float b =>
    if b = 0 then .error (.execution "除数不能为零") else .ok (float (a / b))
  | int a, float b =>
    if b = 0 then .error (.execution "除数不能为零") else .ok (float ((a : Rat) / b))
  | float a, int b =>
    if b = 0 then .error (.execution "除数不能为零") else .ok (float (a / (b : Rat)))
  | _, _ => .error (.execution "类型不兼容，无法相除")

/-- `Value::modulo` (value.rs): integers only; Rust `%` on `i32` truncates
toward zero (`Int.tmod`). -/
def modulo : Value → Value → Except DBError Value
  | int a, int b =>
    if b = 0 then .error (.execution "模数不能为零") else .ok (int (a.tmod b))
  | _, _ => .error (.execution "模运算仅支持整数")

/-- `Value::negate` (value.rs). -/
def negate : Value → Except DBError Value
  | int n => .ok (int (-n))
  | float f => .ok (float (-f))
  | _ => .error (.execution "只能对数值进行取负操作")

/-- `Value::eq` (value.rs lines 110-121): any comparison against `Null`
returns `Ok(false)`; numeric comparisons promote Int to Float; remaining
type mixes are an Execution error. -/
def eq : Value → Value → Except DBError Bool
  | null, _ => .ok false
  | _, null => .ok false
  | int a, int b => .ok (a = b)
  | float a, float b => .ok (a = b)
  | int a, float b => .ok ((a : Rat) = b)
  | float a, int b => .ok (a = (b : Rat))
  | string a, string b => .ok (a = b)
  | boolean a, boolean b => .ok (a = b)
  | _, _ => .error (.execution "类型不匹配，无法比较")

/-- `Value::ne` (value.rs lines 123-125): literally `self.eq(other).map(|r| !r)`. -/
def ne (a b : Value) : Except DBError Bool := (a.eq b).map (fun r => !r)

/-- `Value::lt` (value.rs). -/
def lt : Value → Value → Except DBError Bool
  | null, _ => .ok false
  | _, null => .ok false
  | int a, int b => .ok (a < b)
  | float a, float b => .ok (a < b)
  | int a, float b => .ok ((a : Rat) < b)
  | float a, int b => .ok (a < (b : Rat))
  | string a, string b => .ok (a < b)
  | boolean a, boolean b => .ok (!a && b)
  | _, _ => .error (.execution "类型不匹配，无法比较")

/-- `Value::le` (value.rs). -/
def le : Value → Value → Except DBError Bool
  | null, _ => .ok false
  | _, null => .ok false
  | int a, int b => .ok (a ≤ b)
  | float a, float b => .ok (a ≤ b)
  | int a, float b => .ok ((a : Rat) ≤ b)
  | float a, int b => .ok (a ≤ (b : Rat))
  | string a, string b => .ok (a ≤ b)
  | boolean a, boolean b => .ok (!a || b)
  | _, _ => .error (.execution "类型不匹配，无法比较")

/-- `Value::gt` (value.rs): `other.lt(self)`. -/
def gt (a b : Value) : Except DBError Bool := b.lt a

/-- `Value::ge` (value.rs): `other.le(self)`. -/
def ge (a b : Value) : Except DBError Bool := b.le a

/-- `Value::is_null` (value.rs). -/
def is_null : Value → Bool
  | null => true
  | _ => false

end Value

/-- `BinaryOperator` from `src/planner.rs`. -/
inductive BinaryOperator where
  | add | subtract | multiply | divide | modulo
  | equal | notEqual | lessThan | lessThanOrEqual | greaterThan | greaterThanOrEqual
  | and | or
deriving DecidableEq

/-- `UnaryOperator` from `src/planner.rs`. -/
inductive UnaryOperator where
  | not | minus | plus
deriving DecidableEq

/-- `Expression` from `src/planner.rs`. -/
inductive Expression where
  | column (name : String)
  | value (v : Value)
  | binary (left : Expression) (op : BinaryOperator) (right : Expression)
  | unary (op : UnaryOperator) (operand : Expression)
deriving DecidableEq

/-- `Condition` from `src/planner.rs`. -/
inductive Condition where
  | expression (e : Expression)
  | isNull (e : Expression)
  | isNotNull (e : Expression)
  | constant (b : Bool)
deriving DecidableEq

deriving instance DecidableEq for Except

/-- A panicking computation: `none` models a Rust panic, `some r` a normal
return. -/
abbrev PRes (α : Type) := Option (Except DBError α)

/-- Return normally with a value. -/
def pok {α : Type} (a : α) : PRes α := some (.ok a)

/-- Return normally with an error. -/
def perr {α : Type} (e : DBError) : PRes α := some (.error e)

/-- Sequence two panicking computations (panics and errors propagate). -/
def pbind {α β : Type} (x : PRes α) (f : α → PRes β) : PRes β :=
  match x with
  | none => none
  | some (.error e) => some (.error e)
  | some (.ok a) => f a

/-- `BinaryOperator` application from `Expression::evaluate`
(`src/planner.rs` lines 657-692), on already-evaluated operands. -/
def applyBinary (l : Value) (op : BinaryOperator) (r : Value) : Except DBError Value :=
  match op with
  | .add => l.add r
  | .subtract => l.subtract r
  | .multiply => l.multiply r
  | .divide => l.divide r
  | .modulo => l.modulo r
  | .equal => (l.eq r).map Value.boolean
  | .notEqual => (l.ne r).map Value.boolean
  | .lessThan => (l.lt r).map Value.boolean
  | .lessThanOrEqual => (l.le r).map Value.boolean
  | .greaterThan => (l.gt r).map Value.boolean
  | .greaterThanOrEqual => (l.ge r).map Value.boolean
  | .and =>
    match l, r with
    | .boolean a, .boolean b => .ok (.boolean (a && b))
    | _, _ => .error (.execution "AND 操作需要布尔值")
  | .or =>
    match l, r with
    | .boolean a, .boolean b => .ok (.boolean (a || b))
    | _, _ => .error (.execution "OR 操作需要布尔值")

/-- `UnaryOperator` application from `Expression::evaluate`
(`src/planner.rs` lines 695-709). -/
def applyUnary (op : UnaryOperator) (v : Value) : Except DBError Value :=
  match op with
  | .not =>
    match v with
    | .boolean b => .ok (.boolean (!b))
    | _ => .error (.execution "NOT 操作需要布尔值")
  | .minus => v.negate
  | .plus => .ok v

/-- `Expression::evaluate` (`src/planner.rs` lines 644-711).  A column is
looked up by name in the schema; a missing column is a Planner error.  The
source then indexes `record.values()[column_idx]` directly, which panics when
the record is shorter than the schema; that panic is the `none` branch. -/
def Expression.evaluate (e : Expression) (record : Record) (columns : List ColumnDef) :
    PRes Value :=
  match e with
  | .column name =>
    match columns.findIdx? (fun col => col.name = name) with
    | none => perr (.planner ("列 '" ++ name ++ "' 不存在"))
    | some idx =>
      match record.values[idx]? with
      | some v => pok v
      | none => none
  | .value v => pok v
  | .binary l op r =>
    pbind (l.evaluate record columns) (fun lv =>
      pbind (r.evaluate record columns) (fun rv =>
        some (applyBinary lv op rv)))
  | .unary op operand =>
    pbind (operand.evaluate record columns) (fun v => some (applyUnary op v))

/-- `Condition::evaluate` (`src/planner.rs` lines 725-737).  Only the
`Expression` arm is implemented in the source; the `IsNull`, `IsNotNull` and
`Constant` arms fall into `_ => todo!("完整实现")`, which panics — modelled by
`none`. -/
def Condition.evaluate (c : Condition) (record : Record) (columns : List ColumnDef) :
    PRes Bool :=
  match c with
  | .expression expr =>
    match expr.evaluate record columns with
    | none => none
    | some (.error e) => some (.error e)
    | some (.ok (.boolean b)) => pok b
    | some (.ok _) => perr (.execution "条件表达式必须返回布尔值")
  | _ => none

/-! ## Executor (`src/executor.rs`) -/

/-- `SortDirection` from `src/planner.rs`. -/
inductive SortDirection where
  | asc | desc
deriving DecidableEq

/-- `OrderByItem` from `src/planner.rs`. -/
structure OrderByItem where
  column : String
  direction : SortDirection
deriving DecidableEq

/-- `SelectItem` from `src/planner.rs`. -/
structure SelectItem where
  expr : Expression
  aliasName : Option String
  original_text : String
deriving DecidableEq

/-- `SelectColumns` from `src/planner.rs`. -/
inductive SelectColumns where
  | wildcard
  | columns (items : List SelectItem)
deriving DecidableEq

/-- `ResultSet` from `src/executor.rs`. -/
structure ResultSet where
  columns : List String
  rows : List (List Value)
deriving DecidableEq

/-- `Executor::validate_value_type` (`src/executor.rs` lines 342-365).  Note
that a `Null` value is always accepted, regardless of the column's `NOT NULL`
flag; the `s.len()` of the source is the UTF-8 byte length. -/
def validate_value_type (value : Value) (dt : DataType) : Except DBError Unit :=
  match value, dt with
  | .int _, .int _ => .ok ()
  | .string s, .varchar maxLen =>
    if s.utf8ByteSize > maxLen then
      .error (.schema ("字符串长度(" ++ toString s.utf8ByteSize ++ ")超过了VARCHAR(" ++
        toString maxLen ++ ")的限制"))
    else .ok ()
  | .null, _ => .ok ()
  | _, _ => .error (.schema "值类型与列类型不匹配")

/-- Three-way comparison in a linear order, the common shape of Rust's
`Ord::cmp` for the payload types appearing in `compare_values`. -/
def cmpOrd {α : Type} [LinearOrder α] (a b : α) : Ordering :=
  if a < b then .lt else if a = b then .eq else .gt

/-- Rust `i32::cmp`. -/
def cmpInt (a b : Int) : Ordering := cmpOrd a b

/-- Rust `f64::partial_cmp` on the rational model (never `None`, as `NaN` has
no rational counterpart); `unwrap_or(Equal)` in the source is therefore the
identity here. -/
def cmpRat (a b : Rat) : Ordering := cmpOrd a b

/-- Rust `String::cmp` (byte-wise lexicographic; on UTF-8 this coincides with
the code-point lexicographic order used by Lean's `String` order). -/
def cmpString (a b : String) : Ordering := cmpOrd a b

/-- Rust `bool::cmp` (`false < true`, the order of Lean's `Bool` as well). -/
def cmpBool (a b : Bool) : Ordering := cmpOrd a b

/-- `Executor::compare_values` (`src/executor.rs` lines 514-546): Null is
below every non-Null value; Int and Float compare numerically with Int
promoted to Float; values of incomparable kinds compare `Equal`. -/
def compare_values : Value → Value → Ordering
  | .null, .null => .eq
  | .null, _ => .lt
  | _, .null => .gt
  | .int a, .int b => cmpInt a b
  | .float a, .float b => cmpRat a b
  | .int a, .float b => cmpRat (a : Rat) b
  | .float a, .int b => cmpRat a (b : Rat)
  | .string a, .string b => cmpString a b
  | .boolean a, .boolean b => cmpBool a b
  | _, _ => .eq

/-- Direction application in `Executor::sort_records` (`src/executor.rs` lines
497-500): `Asc` keeps the comparison, `Desc` is `cmp_result.reverse()`. -/
def applyDirection (d : SortDirection) (o : Ordering) : Ordering :=
  match d with
  | .asc => o
  | .desc => o.swap

/-- One key comparison of the `sort_records` loop body (`src/executor.rs`
lines 479-500): the key column is looked up by name; a missing column is
skipped (`continue`), which contributes `Equal`; otherwise the two records'
values at that index are compared and the direction applied.  The source
indexes `a.values()[column_idx]` directly; the model uses `getD` with a
`Null` default, which agrees with the source whenever the record has at
least the schema's arity (the hypotheses of the theorems below ensure this). -/
def keyCompare (cols : List ColumnDef) (item : OrderByItem) (a b : Record) : Ordering :=
  match cols.findIdx? (fun col => col.name = item.column) with
  | none => .eq
  | some idx =>
    applyDirection item.direction
      (compare_values (a.values.getD idx .null) (b.values.getD idx .null))

/-- The full comparator closure of `Executor::sort_records` (`src/executor.rs`
lines 477-508): keys are tried in order; the first non-equal key decides;
otherwise `Equal`. -/
def recordCompare (items : List OrderByItem) (cols : List ColumnDef) (a b : Record) :
    Ordering :=
  match items with
  | [] => .eq
  | item :: rest =>
    let k := keyCompare cols item a b
    if k = .eq then recordCompare rest cols a b else k

/-- The boolean `≤` relation induced by the comparator, used to model
`records.sort_by(..)`. -/
def sortLe (items : List OrderByItem) (cols : List ColumnDef) (a b : Record) : Bool :=
  !(recordCompare items cols a b == .gt)

/-- `Executor::sort_records` (`src/executor.rs` lines 469-511):
`records.sort_by(comparator)` is Rust's stable sort, modelled by
`List.mergeSort`.  The function's `Result` wrapper never carries an error
(the error built for a missing column is discarded by `continue`), so the
model is the pure sorted list. -/
def sort_records (records : List Record) (items : List OrderByItem)
    (cols : List ColumnDef) : List Record :=
  records.mergeSort (sortLe items cols)

/-- The per-row WHERE filter shared by the `Select`, `Update` and `Delete`
arms of `Executor::execute` (`src/executor.rs` lines 206-213, 238-245,
280-287): `records.filter(|r| condition.evaluate(r, cols).unwrap_or(false))`.
An evaluation error demotes the row to non-matching; an evaluation panic
(`none`) aborts the whole statement. -/
def filterMatching (cond : Condition) (cols : List ColumnDef) :
    List Record → Option (List Record)
  | [] => some []
  | r :: rs =>
    match cond.evaluate r cols with
    | none => none
    | some res =>
      match filterMatching cond cols rs with
      | none => none
      | some l => some (if res = Except.ok true then r :: l else l)

/-- The `Select`-arm WHERE filter (`src/executor.rs` lines 280-287). -/
def selectFilter (cond : Condition) (cols : List ColumnDef) (rs : List Record) :
    Option (List Record) :=
  filterMatching cond cols rs

/-- The `Update`-arm WHERE filter computing `to_update`
(`src/executor.rs` lines 206-213). -/
def updateTargets (cond : Condition) (cols : List ColumnDef) (rs : List Record) :
    Option (List Record) :=
  filterMatching cond cols rs

/-- The `Delete`-arm WHERE filter computing `to_delete`
(`src/executor.rs` lines 238-245). -/
def deleteTargets (cond : Condition) (cols : List ColumnDef) (rs : List Record) :
    Option (List Record) :=
  filterMatching cond cols rs

/-- Row projection for one record under explicit select items
(`Executor::project_columns`, `src/executor.rs` lines 386-392). -/
def projectRow (items : List SelectItem) (r : Record) (cols : List ColumnDef) :
    PRes (List Value) :=
  match items with
  | [] => pok []
  | item :: rest =>
    pbind (item.expr.evaluate r cols) (fun v =>
      pbind (projectRow rest r cols) (fun vs => pok (v :: vs)))

/-- The explicit-items loop of `Executor::project_columns`. -/
def projectRows (items : List SelectItem) (records : List Record)
    (cols : List ColumnDef) : PRes (List (List Value)) :=
  match records with
  | [] => pok []
  | r :: rest =>
    pbind (projectRow items r cols) (fun row =>
      pbind (projectRows items rest cols) (fun rows =>
        pok (row :: rows)))

/-- `Executor::project_columns` (`src/executor.rs` lines 368-399). -/
def project_columns (records : List Record) (sel : SelectColumns)
    (cols : List ColumnDef) : PRes (List (List Value)) :=
  match sel with
  | .wildcard => pok (records.map (fun r => r.values))
  | .columns items => projectRows items records cols

/-- `Executor::generate_result_columns` (`src/executor.rs` lines 402-429):
wildcard yields the table's column names; an item's header is its alias if
present, else its original source text.  The source's `Result` wrapper never
carries an error. -/
def generate_result_columns (sel : SelectColumns) (cols : List ColumnDef) :
    List String :=
  match sel with
  | .wildcard => cols.map (fun c => c.name)
  | .columns items => items.map (fun item => item.aliasName.getD item.original_text)

/-- The table-present `Select` arm of `Executor::execute`
(`src/executor.rs` lines 258-307), applied to the table's column list and the
scanned records: WHERE filter (errors demoted per row), then ORDER BY sort,
then projection and result-column generation. -/
def executeSelect (tableCols : List ColumnDef) (records : List Record)
    (sel : SelectColumns) (conds : Option Condition)
    (order : Option (List OrderByItem)) : PRes ResultSet :=
  let filtered : Option (List Record) :=
    match conds with
    | none => some records
    | some c => filterMatching c tableCols records
  match filtered with
  | none => none
  | some recs =>
    let sorted :=
      match order with
      | none => recs
      | some items => sort_records recs items tableCols
    pbind (project_columns sorted sel tableCols) (fun rows =>
      pok { columns := generate_result_columns sel tableCols, rows := rows })

/-! ## Page layer (`src/storage/io/page.rs`)

The page stores `records: Vec<Option<RawRecord>>` (`RawRecord = Vec<Value>`)
and serializes it with `bincode 2.x`, `config::standard()` (variable-length
integer encoding).  The model computes the exact encoded byte count:
* an unsigned length / discriminant `u < 251` takes 1 byte, `u ≤ u16::MAX`
  takes 3, `u ≤ u32::MAX` takes 5, else 9;
* a signed integer is zig-zag folded to an unsigned one first;
* an enum writes its `u32` variant index, `Option` writes a one-byte tag,
  `String`/`Vec` write their length then their elements, `f64` is 8 bytes,
  `bool` is 1 byte. -/

/-- Byte count of a bincode-2 `varint`-encoded unsigned integer. -/
def varintSize (n : Nat) : Nat :=
  if n < 251 then 1 else if n < 2 ^ 16 then 3 else if n < 2 ^ 32 then 5 else 9

/-- bincode's zig-zag fold of a signed integer into an unsigned one. -/
def zigzag (i : Int) : Nat :=
  if 0 ≤ i then (2 * i).toNat else (-(2 * i) - 1).toNat

/-- Encoded byte count of one `Value` (variant index, then payload). -/
def Value.encSize : Value → Nat
  | .int n => 1 + varintSize (zigzag n)
  | .float _ => 1 + 8
  | .string s => 1 + varintSize s.utf8ByteSize + s.utf8ByteSize
  | .boolean _ => 1 + 1
  | .null => 1

/-- Encoded byte count of a `RawRecord` (`Vec<Value>`): length varint plus
elements.  This is the model of `Page::estimate_record_size`
(`src/storage/io/page.rs` lines 427-431, `encode_to_vec(record).len()`). -/
def estimate_record_size (r : List Value) : Nat :=
  varintSize r.length + (r.map Value.encSize).sum

/-- Encoded byte count of one slot (`Option<RawRecord>`): a one-byte tag,
plus the record when occupied. -/
def slotEncSize : Option (List Value) → Nat
  | none => 1
  | some r => 1 + estimate_record_size r

/-- Encoded byte count of the whole slot vector — the model of
`Page::serialize(...).len()` (`src/storage/io/page.rs` lines 67-70). -/
def pageEncSize (records : List (Option (List Value))) : Nat :=
  varintSize records.length + (records.map slotEncSize).sum

/-- `PAGE_SIZE` (`src/storage/io/page.rs` line 7). -/
def PAGE_SIZE : Nat := 32768

/-- `Page` (`src/storage/io/page.rs` lines 17-27): id, slot vector, dirty
flag, and the cached serialized size. -/
structure Page where
  id : Nat
  records : List (Option (List Value))
  is_dirty : Bool
  cached_size : Option Nat
deriving DecidableEq

namespace Page

/-- `Page::new` (page.rs lines 31-38). -/
def new (id : Nat) : Page := ⟨id, [], false, none⟩

/-- `Page::serialize(...).len()` for a page value. -/
def serializedSize (p : Page) : Nat := pageEncSize p.records

/-- `Page::can_fit_record` (page.rs lines 434-455): a coarse estimate
(`active_records * 100 + 1024` for the current page, `64` bytes of overhead,
a 2 KiB safety margin) that escalates to an exact serialization only when the
estimate comes within the margin.  The source wraps the result in `Result`
but serialization cannot fail; the model returns the boolean directly. -/
def can_fit_record (p : Page) (record : List Value) : Bool :=
  let record_size := estimate_record_size record
  let estimated_overhead := 64
  let safety_margin := 2048
  let active_records := (p.records.filter (fun r => r.isSome)).length
  let estimated_current_size := active_records * 100 + 1024
  let estimated_new_size := estimated_current_size + record_size + estimated_overhead
  if estimated_new_size > PAGE_SIZE - safety_margin then
    let current_size := pageEncSize p.records
    decide (current_size + record_size + estimated_overhead ≤ PAGE_SIZE - safety_margin)
  else
    true

/-- `Page::insert_record` (page.rs lines 118-137): capacity check via
`can_fit_record`, then first-vacant-slot placement (or append), mark dirty,
invalidate the size cache, and return the `RecordId`. -/
def insert_record (p : Page) (raw_record : List Value) :
    Except DBError (RecordId × Page) :=
  if !(p.can_fit_record raw_record) then
    .error (.io "页面空间不足，需要新页面")
  else
    match p.records.findIdx? (fun r => r.isNone) with
    | some slot =>
      .ok (⟨p.id, slot⟩,
        { p with records := p.records.set slot (some raw_record),
                 is_dirty := true, cached_size := none })
    | none =>
      .ok (⟨p.id, p.records.length⟩,
        { p with records := p.records ++ [some raw_record],
                 is_dirty := true, cached_size := none })

/-- `Page::delete_record` (page.rs lines 140-159).  The returned page is the
state after the call: on any error the source returns before mutating, so the
input page is handed back unchanged. -/
def delete_record (p : Page) (id : RecordId) : Except DBError Unit × Page :=
  if id.page_id ≠ p.id then
    (.error (.io "RecordId 的页面ID不匹配"), p)
  else if p.records.length ≤ id.slot then
    (.error (.notFound ("记录槽位 " ++ toString id.slot ++ " 不存在")), p)
  else
    match p.records.getD id.slot none with
    | none => (.error (.notFound ("记录槽位 " ++ toString id.slot ++ " 已被删除")), p)
    | some _ =>
      (.ok (), { p with records := p.records.set id.slot none,
                        is_dirty := true, cached_size := none })

/-- `Page::insert_record` iterated `n` times with the same row (a helper used
to evaluate insertion sequences; errors abort the sequence). -/
def insertN (p : Page) (row : List Value) : Nat → Except DBError Page
  | 0 => .ok p
  | n + 1 =>
    match p.insert_record row with
    | .error e => .error e
    | .ok (_, p') => p'.insertN row n

end Page

/-! ## Table and executor insert path
(`src/storage/table.rs` lines 140-173 and `src/executor.rs` lines 131-192)

For the insert-acceptance claims the page placement is irrelevant, so the
table is modelled as its schema plus the list of stored rows;
`Table::insert_record` checks only that the arity of the row matches the
schema (a Schema error otherwise) and then places the row — it consults
neither the `not_null` nor the `unique` flag of any column. -/

/-- Table state: schema plus stored rows. -/
structure TableState where
  columns : List ColumnDef
  rows : List (List Value)
deriving DecidableEq

/-- `Table::insert_record` (`src/storage/table.rs` lines 140-173): arity
check, then placement (modelled as appending the row). -/
def tableInsertRecord (t : TableState) (values : List Value) :
    Except DBError TableState :=
  if values.length ≠ t.columns.length then
    .error (.schema ("值的数量(" ++ toString values.length ++ ")与列数(" ++
      toString t.columns.length ++ ")不匹配"))
  else
    .ok { t with rows := t.rows ++ [values] }

/-- Per-row type validation loop of the no-column-list insert
(`src/executor.rs` lines 154-158): each value is validated against the
column at the same position. -/
def validateRowTypes : List Value → List ColumnDef → Except DBError Unit
  | [], _ => .ok ()
  | _, [] => .ok ()
  | v :: vs, c :: cs =>
    match validate_value_type v c.data_type with
    | .error e => .error e
    | .ok () => validateRowTypes vs cs

/-- The no-column-list `Plan::Insert` arm (`src/executor.rs` lines 139-160):
first every row's arity is checked against the table's column count, then
each row is type-validated and inserted in order. -/
def executorInsertAll (t : TableState) (rows : List (List Value)) :
    Except DBError TableState :=
  if rows.any (fun row => row.length ≠ t.columns.length) then
    .error (.execution "行的值数量与表的列数不匹配")
  else
    rows.foldlM (fun acc row =>
      match validateRowTypes row acc.columns with
      | .error e => .error e
      | .ok () => tableInsertRecord acc row) t

/-- Full-row construction of the explicit-column-list `Plan::Insert` arm
(`src/executor.rs` lines 165-185): walk the table's columns; a column named
in the INSERT list takes the supplied value (after type validation), a
missing `NOT NULL` column is an Execution error, and a missing nullable
column becomes `Null`.  `row[column_index]` is total here because the planner
has already checked `row.len() == columns.len()`; the model uses `getD`. -/
def buildFullRow (tableCols : List ColumnDef) (insertCols : List String)
    (row : List Value) : Except DBError (List Value) :=
  match tableCols with
  | [] => .ok []
  | c :: cs =>
    match insertCols.findIdx? (fun name => name = c.name) with
    | some j =>
      match validate_value_type (row.getD j .null) c.data_type with
      | .error e => .error e
      | .ok () =>
        match buildFullRow cs insertCols row with
        | .error e => .error e
        | .ok vs => .ok (row.getD j .null :: vs)
    | none =>
      if c.not_null then
        .error (.execution ("列 '" ++ c.name ++ "' 不允许为 NULL，但未在 INSERT 中指定值"))
      else
        match buildFullRow cs insertCols row with
        | .error e => .error e
        | .ok vs => .ok (Value.null :: vs)

/-- The explicit-column-list `Plan::Insert` arm (`src/executor.rs` lines
161-189): each row is completed to the table's arity and inserted in order. -/
def executorInsertWithColumns (t : TableState) (insertCols : List String)
    (rows : List (List Value)) : Except DBError TableState :=
  rows.foldlM (fun acc row =>
    match buildFullRow acc.columns insertCols row with
    | .error e => .error e
    | .ok fullRow => tableInsertRecord acc fullRow) t

/-- `Plan::Insert` dispatch (`src/executor.rs` lines 131-192): an empty
column list means positional insert over all columns. -/
def executorInsert (t : TableState) (insertCols : List String)
    (rows : List (List Value)) : Except DBError TableState :=
  if insertCols.isEmpty then executorInsertAll t rows
  else executorInsertWithColumns t insertCols rows

/-! ## Persistence pipeline
(`src/storage/io/disk_manager.rs`, `src/storage/io/buffer_manager.rs`,
`src/storage/io/persistence.rs`, `src/storage/catalog.rs`,
`src/storage/database.rs`)

The data file is modelled at the decoded level: `data.db` is a list of page
images, page `i` at byte offset `i · PAGE_SIZE`; one image is the decoded
slot vector (an all-zero freshly allocated page decodes to the empty
vector).  The catalog (`<db>.meta`) is modelled as the association list of
table name ↦ (columns, page ids). -/

/-- Decoded content of one on-disk page. -/
abbrev PageImage := List (Option (List Value))

/-- `DiskManager` (`disk_manager.rs` lines 8-13): the backing file plus the
next page id to allocate. -/
structure DiskManager where
  file : List PageImage
  next_page_id : Nat
deriving DecidableEq

namespace DiskManager

/-- `DiskManager::new` (`disk_manager.rs` lines 17-35): the data file is
opened with `OpenOptions::new().read(true).write(true).create(true)
.truncate(true)`, so whatever the file contained before the open is
discarded; the fresh manager sees an empty file and
`next_page_id = file_size / PAGE_SIZE = 0`. -/
def new (_previousFile : List PageImage) : DiskManager := ⟨[], 0⟩

/-- `DiskManager::read_page` (`disk_manager.rs` lines 38-69): a read at or
past the end of file is a NotFound error. -/
def read_page (dm : DiskManager) (page_id : Nat) : Except DBError PageImage :=
  if dm.file.length ≤ page_id then
    .error (.notFound ("页面 " ++ toString page_id ++ " 不存在"))
  else
    .ok (dm.file.getD page_id [])

/-- `DiskManager::write_page` (`disk_manager.rs` lines 72-102): data larger
than `PAGE_SIZE` is rejected; otherwise the page is written (zero-padded) at
its offset.  Writing at the end of file extends it, as `allocate_page`
does. -/
def write_page (dm : DiskManager) (page_id : Nat) (img : PageImage) :
    Except DBError DiskManager :=
  if PAGE_SIZE < pageEncSize img then
    .error (.io ("页面数据过大: " ++ toString (pageEncSize img) ++ " > " ++
      toString PAGE_SIZE))
  else if page_id < dm.file.length then
    .ok { dm with file := dm.file.set page_id img }
  else if page_id = dm.file.length then
    .ok { dm with file := dm.file ++ [img] }
  else
    .ok { dm with file :=
      dm.file ++ List.replicate (page_id - dm.file.length) [] ++ [img] }

/-- `DiskManager::allocate_page` (`disk_manager.rs` lines 105-114): returns
`next_page_id`, bumps it, and extends the file with a zero page (which
decodes to the empty slot vector). -/
def allocate_page (dm : DiskManager) : Except DBError (Nat × DiskManager) :=
  let page_id := dm.next_page_id
  match write_page { dm with next_page_id := page_id + 1 } page_id [] with
  | .error e => .error e
  | .ok dm' => .ok (page_id, dm')

end DiskManager

/-- `BufferManager` (`buffer_manager.rs` lines 11-20).  The LRU list and the
pinned set play no role in the claims treated here (the pool is never filled
to its 1024-page capacity), so only the disk manager and the page cache are
modelled; the cache is an association list page id ↦ page. -/
structure BufferManager where
  disk : DiskManager
  pages : List (Nat × Page)
deriving DecidableEq

namespace BufferManager

/-- Cache lookup. -/
def cached? (bm : BufferManager) (page_id : Nat) : Option Page :=
  (bm.pages.find? (fun kv => kv.1 = page_id)).map (fun kv => kv.2)

/-- Replace (or add) a cache entry. -/
def cacheSet (bm : BufferManager) (page_id : Nat) (p : Page) : BufferManager :=
  { bm with pages :=
      (page_id, p) :: bm.pages.filter (fun kv => kv.1 ≠ page_id) }

/-- `BufferManager::get_page` / `get_page_mut` (`buffer_manager.rs` lines
33-58): a cached page is returned as is; otherwise the page is loaded from
disk (`load_page`, lines 117-131) and decoded via `Page::from_data`. -/
def get_page (bm : BufferManager) (page_id : Nat) :
    Except DBError (Page × BufferManager) :=
  match bm.cached? page_id with
  | some p => .ok (p, bm)
  | none =>
    match bm.disk.read_page page_id with
    | .error e => .error e
    | .ok img =>
      let p : Page := ⟨page_id, img, false, none⟩
      .ok (p, bm.cacheSet page_id p)

/-- `BufferManager::create_page` (`buffer_manager.rs` lines 61-78): allocate
a fresh id on disk, cache an empty `Page`. -/
def create_page (bm : BufferManager) : Except DBError (Nat × BufferManager) :=
  match bm.disk.allocate_page with
  | .error e => .error e
  | .ok (page_id, dm') =>
    .ok (page_id, (BufferManager.mk dm' bm.pages).cacheSet page_id (Page.new page_id))

/-- `BufferManager::flush_page` (`buffer_manager.rs` lines 98-106): a dirty
cached page is serialized, written through, and marked clean. -/
def flush_page (bm : BufferManager) (page_id : Nat) : Except DBError BufferManager :=
  match bm.cached? page_id with
  | none => .ok bm
  | some p =>
    if p.is_dirty then
      match bm.disk.write_page page_id p.records with
      | .error e => .error e
      | .ok dm' =>
        .ok ((BufferManager.mk dm' bm.pages).cacheSet page_id { p with is_dirty := false })
    else
      .ok bm

/-- `BufferManager::flush_all_pages` (`buffer_manager.rs` lines 109-114). -/
def flush_all_pages (bm : BufferManager) : Except DBError BufferManager :=
  (bm.pages.map (fun kv => kv.1)).foldlM flush_page bm

end BufferManager

/-- One catalog entry (`src/storage/catalog.rs` `TableMetadata`). -/
structure TableMetadata where
  columns : List ColumnDef
  page_ids : List Nat
deriving DecidableEq

/-- The catalog (`src/storage/catalog.rs`): table name ↦ metadata. -/
abbrev Catalog := List (String × TableMetadata)

/-- `Table` of the storage layer (`src/storage/table.rs` lines 104-113,
restricted to what the persistence claims use): schema plus page-id chain. -/
structure StoredTable where
  columns : List ColumnDef
  page_ids : List Nat
deriving DecidableEq

/-- `Database` (`src/storage/database.rs` lines 9-18): the table map, the
catalog and the persistence handle (its buffer manager). -/
structure DatabaseState where
  tables : List (String × StoredTable)
  catalog : Catalog
  buffer : BufferManager
deriving DecidableEq

namespace DatabaseState

/-- Try inserting into the existing pages in chain order
(`Table::insert_record`, `src/storage/table.rs` lines 152-161): the first
page that accepts the record wins; a page error means "try the next page". -/
def insertIntoChain (bm : BufferManager) (row : List Value) :
    List Nat → Option (RecordId × BufferManager)
  | [] => none
  | pid :: rest =>
    match bm.get_page pid with
    | .error _ => insertIntoChain bm row rest
    | .ok (p, bm') =>
      match p.insert_record row with
      | .error _ => insertIntoChain bm' row rest
      | .ok (rid, p') => some (rid, bm'.cacheSet pid p')

/-- `Database::insert_record` → `Table::insert_record`
(`src/storage/database.rs` lines 122-136, `src/storage/table.rs` lines
140-173): arity check, try each existing page, else allocate a fresh page,
append it to the chain and insert there.  The record placement itself is the
`Page::insert_record` of `src/storage/io/page.rs`. -/
def insert_record (db : DatabaseState) (table_name : String) (row : List Value) :
    Except DBError (RecordId × DatabaseState) :=
  match db.tables.find? (fun kv => kv.1 = table_name) with
  | none => .error (.notFound ("表 '" ++ table_name ++ "' 不存在"))
  | some (_, t) =>
    if row.length ≠ t.columns.length then
      .error (.schema ("值的数量(" ++ toString row.length ++ ")与列数(" ++
        toString t.columns.length ++ ")不匹配"))
    else
      match insertIntoChain db.buffer row t.page_ids with
      | some (rid, bm') => .ok (rid, { db with buffer := bm' })
      | none =>
        match db.buffer.create_page with
        | .error e => .error e
        | .ok (pid, bm') =>
          match bm'.get_page pid with
          | .error e => .error e
          | .ok (p, bm'') =>
            match p.insert_record row with
            | .error e => .error e
            | .ok (rid, p') =>
              let t' : StoredTable := { t with page_ids := t.page_ids ++ [pid] }
              .ok (rid,
                { db with
                    buffer := bm''.cacheSet pid p',
                    tables := db.tables.map (fun kv =>
                      if kv.1 = table_name then (kv.1, t') else kv) })

/-- Record extraction from the pages of one chain
(`Table::get_all_records`, `src/storage/table.rs` lines 253-276): every
occupied slot of every page in chain order; a failed page read propagates
through the `?` operator. -/
def scanChain (bm : BufferManager) : List Nat → Except DBError (List (List Value))
  | [] => .ok []
  | pid :: rest =>
    match bm.get_page pid with
    | .error e => .error e
    | .ok (p, bm') =>
      match scanChain bm' rest with
      | .error e => .error e
      | .ok vs => .ok (p.records.filterMap id ++ vs)

/-- `Database::get_all_records` (`src/storage/database.rs` lines 170-182),
returning the stored rows. -/
def get_all_records (db : DatabaseState) (table_name : String) :
    Except DBError (List (List Value)) :=
  match db.tables.find? (fun kv => kv.1 = table_name) with
  | none => .error (.notFound ("表 '" ++ table_name ++ "' 不存在"))
  | some (_, t) => scanChain db.buffer t.page_ids

/-- The files a database leaves on disk: `<db>.meta` (the catalog blob, or
absent) and `data.db`. -/
structure DBFiles where
  meta : Option Catalog
  data : List PageImage
deriving DecidableEq

/-- `Database::save` (`src/storage/database.rs` lines 105-119): refresh each
table's page ids into the catalog, write the catalog to `<db>.meta`, then
flush all dirty pages into `data.db`.  Returns the resulting on-disk files
and the post-save database state. -/
def save (db : DatabaseState) : Except DBError (DBFiles × DatabaseState) :=
  let catalog' : Catalog := db.catalog.map (fun kv =>
    match db.tables.find? (fun tkv => tkv.1 = kv.1) with
    | some (_, t) => (kv.1, { kv.2 with page_ids := t.page_ids })
    | none => kv)
  match db.buffer.flush_all_pages with
  | .error e => .error e
  | .ok bm' =>
    .ok ({ meta := some catalog', data := bm'.disk.file },
         { db with catalog := catalog', buffer := bm' })

/-- Re-opening a database directory (`Database::new` then `Database::load`,
`src/storage/database.rs` lines 21-32 and 85-102): `PersistenceManager::new`
builds a `BufferManager` whose `DiskManager::new` **truncates** `data.db`;
`load_metadata` reads the catalog (absent file ⇒ empty catalog); `load`
hydrates each catalogued table with its page-id chain. -/
def reopen (files : DBFiles) : DatabaseState :=
  let dm := DiskManager.new files.data
  let catalog := files.meta.getD []
  { tables := catalog.map (fun kv => (kv.1, ⟨kv.2.columns, kv.2.page_ids⟩)),
    catalog := catalog,
    buffer := { disk := dm, pages := [] } }

end DatabaseState

/-! ## Concrete scenario data used by the claim theorems and witnesses -/

/-- Schema of the persistence scenario (an `id INT PRIMARY KEY` and a
`name VARCHAR(100)` column, as in `storage.rs`'s `test_persistence`). -/
def c1Cols : List ColumnDef :=
  [⟨"id", .int 32, true, true, true⟩, ⟨"name", .varchar 100, true, false, false⟩]

/-- The row inserted before the save in the persistence scenario. -/
def c1Row : List Value := [.int 1, .string "Alice"]

/-- A freshly created database holding the empty table `users`: the state
after `CREATE TABLE users (...)` on a clean engine. -/
def c1Db0 : DatabaseState :=
  { tables := [("users", ⟨c1Cols, []⟩)],
    catalog := [("users", ⟨c1Cols, []⟩)],
    buffer := { disk := ⟨[], 0⟩, pages := [] } }

/-- Schema with a single `id INT UNIQUE` column (scenario S3: the planner
produces `unique = true`, `not_null = false`, `is_primary = false`). -/
def c2Cols : List ColumnDef := [⟨"id", .int 64, false, true, false⟩]

/-- Schema with `id INT NOT NULL` and `name VARCHAR(10)` (scenario S4). -/
def c4Cols : List ColumnDef :=
  [⟨"id", .int 64, true, false, false⟩, ⟨"name", .varchar 10, false, false, false⟩]

/-- A one-column row whose single value is a 1000-byte string: large enough
that `can_fit_record`'s coarse estimate (`active_records * 100 + 1024`)
underestimates the page badly. -/
def c6Row : List Value := [.string (String.mk (List.replicate 1000 'a'))]

/-- The page obtained after 33 successful inserts of `c6Row` into an empty
page. -/
def c6Page : Page := ⟨0, List.replicate 33 (some c6Row), true, none⟩

/-- One-column schema for the ORDER-BY scenarios. -/
def c7Cols : List ColumnDef := [⟨"id", .int 32, false, false, false⟩]

/-- Two scanned records, deliberately out of order on `id`. -/
def c7Recs : List Record := [⟨some ⟨0, 0⟩, [.int 2]⟩, ⟨some ⟨0, 1⟩, [.int 1]⟩]

/-- WHERE condition `a = 1` for the filter scenario. -/
def c8Cond : Condition :=
  .expression (.binary (.column "a") .equal (.value (.int 1)))

/-- One-column schema for the filter scenario. -/
def c8Cols : List ColumnDef := [⟨"a", .int 32, false, false, false⟩]

/-- Three rows for the filter scenario: the condition matches the first,
errors on the second (Boolean against Int is a comparison type error), and
rejects the third. -/
def c8Recs : List Record :=
  [⟨some ⟨0, 0⟩, [.int 1]⟩, ⟨some ⟨0, 1⟩, [.boolean true]⟩, ⟨some ⟨0, 2⟩, [.int 7]⟩]

/-- Two-column schema for the sort scenario. -/
def c9Cols : List ColumnDef :=
  [⟨"id", .int 32, false, false, false⟩, ⟨"score", .int 32, false, false, false⟩]

/-- `ORDER BY score DESC`. -/
def c9Items : List OrderByItem := [⟨"score", .desc⟩]

/-- Three scanned records for the sort scenario (scores 10, 30, 20). -/
def c9Recs : List Record :=
  [⟨some ⟨0, 0⟩, [.int 1, .int 10]⟩, ⟨some ⟨0, 1⟩, [.int 2, .int 30]⟩,
   ⟨some ⟨0, 2⟩, [.int 3, .int 20]⟩]

/-! ## Claim theorems -/

/-- Claim C1 (refuted by the code, a code bug): the persistence round trip
fails.  Concretely: after creating `users`, inserting one record and saving,
the on-disk files hold the catalog and one data page; but re-opening a
storage engine on the same directory runs `DiskManager::new`, whose
`truncate(true)` wipes `data.db`, so the reloaded table still has its column
list and page chain while every page read — and hence `get_all_records` —
fails with NotFound instead of returning the saved record set. -/
theorem c1_reopen_loses_records :
    ∃ rid db1 files db2,
      c1Db0.insert_record "users" c1Row = .ok (rid, db1) ∧
      db1.get_all_records "users" = .ok [c1Row] ∧
      db1.save = .ok (files, db2) ∧
      files.meta = some [("users", ⟨c1Cols, [0]⟩)] ∧
      files.data = [[some c1Row]] ∧
      (DatabaseState.reopen files).tables = [("users", ⟨c1Cols, [0]⟩)] ∧
      (DatabaseState.reopen files).get_all_records "users" =
        .error (.notFound "页面 0 不存在") :=
  ⟨_, _, _, _, rfl, rfl, rfl, rfl, rfl, rfl, rfl⟩

/-- Claim C2 (refuted by the code, a code bug): no layer of the insert path
consults the `unique` flag, so inserting the same value twice into an
`INT UNIQUE` column succeeds both times and the duplicate row is stored,
where the claim (and spec scenario S3) demands a Schema error and an
unchanged record set. -/
theorem c2_duplicate_unique_insert_accepted :
    executorInsert ⟨c2Cols, []⟩ [] [[.int 1]] = .ok ⟨c2Cols, [[.int 1]]⟩ ∧
    executorInsert ⟨c2Cols, [[.int 1]]⟩ [] [[.int 1]] =
      .ok ⟨c2Cols, [[.int 1], [.int 1]]⟩ :=
  ⟨rfl, rfl⟩

/-- Claim C3 (refuted by the code, a code bug): `Condition::evaluate` is not
total — the `Constant`, `IsNull` and `IsNotNull` arms all fall into
`todo!("完整实现")` and panic; only the `Expression` arm returns, and there it
yields the boolean result as specified. -/
theorem c3_condition_evaluate_incomplete :
    (∀ (b : Bool) (r : Record) (cols : List ColumnDef),
      Condition.evaluate (.constant b) r cols = none) ∧
    (∀ (e : Expression) (r : Record) (cols : List ColumnDef),
      Condition.evaluate (.isNull e) r cols = none ∧
      Condition.evaluate (.isNotNull e) r cols = none) ∧
    (∀ (e : Expression) (r : Record) (cols : List ColumnDef) (b : Bool),
      e.evaluate r cols = pok (.boolean b) →
      Condition.evaluate (.expression e) r cols = pok b) := by
  refine ⟨fun b r cols => rfl, fun e r cols => ⟨rfl, rfl⟩, fun e r cols b h => ?_⟩
  simp [Condition.evaluate, h, pok]

/-- Witness for the hypothesis of the third clause of the C3 theorem, at a
concrete boolean expression. -/
theorem c3_condition_evaluate_incomplete_witness :
    Condition.evaluate (.expression (.value (.boolean true))) ⟨none, []⟩ [] = pok true ∧
    Condition.evaluate (.constant true) ⟨none, []⟩ [] = none :=
  ⟨c3_condition_evaluate_incomplete.2.2 (.value (.boolean true)) ⟨none, []⟩ [] true rfl,
   c3_condition_evaluate_incomplete.1 true ⟨none, []⟩ []⟩

/-- Claim C4 (refuted by the code, a code bug): `validate_value_type`
accepts `Null` unconditionally (its comment defers the NOT NULL check to a
function that does not exist), and no later layer checks it either, so an
INSERT that explicitly supplies `Null` for a NOT NULL column succeeds — with
and without an explicit column list — and the record is stored. -/
theorem c4_explicit_null_accepted_for_not_null_column :
    executorInsert ⟨c4Cols, []⟩ ["id", "name"] [[.null, .string "x"]] =
      .ok ⟨c4Cols, [[.null, .string "x"]]⟩ ∧
    executorInsert ⟨c4Cols, []⟩ [] [[.null, .string "x"]] =
      .ok ⟨c4Cols, [[.null, .string "x"]]⟩ :=
  ⟨rfl, rfl⟩

/-- Counterexample to claim C5: `Value::ne` is the negation of `Value::eq`,
so `1 ≠ NULL` (and symmetrically `NULL ≠ 1`) evaluates to `true`, not
`false` as the claim states for every comparison operator. -/
theorem c5_ne_null_is_true :
    Value.ne (.int 1) .null = .ok true ∧ Value.ne .null (.int 1) = .ok true ∧
    (Except.ok true : Except DBError Bool) ≠ .ok false :=
  ⟨rfl, rfl, by decide⟩

/-- Claim C5 as amended: when either operand is `Null`, the comparisons
`=, <, ≤, >, ≥` all evaluate to `false`, while `≠` — being the literal
negation of `=` — evaluates to `true`. -/
theorem c5_null_comparison_semantics (a b : Value) (h : a = .null ∨ b = .null) :
    a.eq b = .ok false ∧ a.lt b = .ok false ∧ a.le b = .ok false ∧
    a.gt b = .ok false ∧ a.ge b = .ok false ∧ a.ne b = .ok true := by
  rcases h with rfl | rfl
  · cases b <;> exact ⟨rfl, rfl, rfl, rfl, rfl, rfl⟩
  · cases a <;> exact ⟨rfl, rfl, rfl, rfl, rfl, rfl⟩

/-- Witness for the C5 amended theorem at `(NULL, 3)`. -/
theorem c5_null_comparison_semantics_witness :
    Value.eq .null (.int 3) = .ok false ∧ Value.lt .null (.int 3) = .ok false ∧
    Value.le .null (.int 3) = .ok false ∧ Value.gt .null (.int 3) = .ok false ∧
    Value.ge .null (.int 3) = .ok false ∧ Value.ne .null (.int 3) = .ok true :=
  c5_null_comparison_semantics .null (.int 3) (Or.inl rfl)

set_option maxRecDepth 100000 in
/-- Claim C6 (refuted by the code, a code bug): 33 successive inserts of a
single 1000-byte-string row into an empty page are all accepted — each one
passes `can_fit_record`'s fast path, whose `active_records * 100 + 1024`
estimate badly underestimates the page — yet the resulting page serializes
to 33199 bytes, beyond `PAGE_SIZE` (32768) and a fortiori beyond the claimed
1 KiB safety margin; `DiskManager::write_page` then refuses the oversized
page, so it can never be flushed. -/
theorem c6_insert_breaks_page_size_invariant :
    Page.insertN (Page.new 0) c6Row 33 = .ok c6Page ∧
    PAGE_SIZE < c6Page.serializedSize ∧
    DiskManager.write_page ⟨[], 0⟩ 0 c6Page.records =
      .error (.io "页面数据过大: 33199 > 32768") :=
  ⟨rfl, by decide, by decide⟩

/-- Claim C10 (confirmed): deleting at a slot that is inside the slot array
but already vacant returns a NotFound error and hands the page back
untouched (in particular not marked dirty); and on an occupied slot the
first delete succeeds while an immediate second delete of the same record id
fails — deletion is not idempotent. -/
theorem c10_delete_record_vacant_slot (p : Page) (id : RecordId)
    (hpid : id.page_id = p.id) (hslot : id.slot < p.records.length) :
    (p.records.getD id.slot none = none →
      (p.delete_record id).1 =
        .error (.notFound ("记录槽位 " ++ toString id.slot ++ " 已被删除")) ∧
      (p.delete_record id).2 = p) ∧
    (∀ row, p.records.getD id.slot none = some row →
      (p.delete_record id).1 = .ok () ∧
      ((p.delete_record id).2.delete_record id).1 =
        .error (.notFound ("记录槽位 " ++ toString id.slot ++ " 已被删除"))) := by
  constructor
  · intro hvac
    rw [List.getD_eq_getElem?_getD] at hvac
    constructor <;> simp [Page.delete_record, hpid, Nat.not_le.mpr hslot, hvac]
  · intro row hrow
    rw [List.getD_eq_getElem?_getD] at hrow
    have h1 : p.delete_record id =
        (.ok (), { p with records := p.records.set id.slot none,
                          is_dirty := true, cached_size := none }) := by
      simp [Page.delete_record, hpid, Nat.not_le.mpr hslot, hrow]
    rw [h1]
    refine ⟨rfl, ?_⟩
    simp [Page.delete_record, hpid, Nat.not_le.mpr hslot,
      List.getElem?_set_self hslot]

/-- The WHERE filter agrees with `List.filter` by the predicate "the
condition evaluated to `Ok(true)`" whenever no row panics; in particular an
evaluation error on one row does not abort the scan. -/
theorem filterMatching_eq_filter (cond : Condition) (cols : List ColumnDef) :
    ∀ rs : List Record, (∀ r ∈ rs, Condition.evaluate cond r cols ≠ none) →
      filterMatching cond cols rs =
        some (rs.filter (fun r => decide (Condition.evaluate cond r cols = pok true))) := by
  intro rs
  induction rs with
  | nil => intro _; rfl
  | cons r rest ih =>
    intro hnp
    obtain ⟨res, hres⟩ : ∃ res, Condition.evaluate cond r cols = some res := by
      cases hcase : Condition.evaluate cond r cols with
      | none => exact absurd hcase (hnp r (List.mem_cons_self r rest))
      | some res => exact ⟨res, rfl⟩
    have ih' := ih (fun x hx => hnp x (List.mem_cons_of_mem r hx))
    rw [filterMatching, hres, ih', List.filter_cons]
    by_cases hok : res = Except.ok true
    · simp [hok, pok, hres]
    · simp [hok, pok, hres]

/-- Claim C8 (confirmed): for SELECT, UPDATE and DELETE alike, the WHERE
filter keeps exactly the rows whose condition evaluates to `Ok(true)`; a row
whose evaluation returns an error is treated as non-matching — it is
excluded from the kept rows (the SELECT result set, the UPDATE targets, the
DELETE targets) — and the scan continues over the remaining rows.  (The
hypothesis excludes per-row panics, which are not "returning an error".) -/
theorem c8_where_errors_demote_rows (cond : Condition) (cols : List ColumnDef)
    (rs : List Record)
    (hnp : ∀ r ∈ rs, Condition.evaluate cond r cols ≠ none) :
    selectFilter cond cols rs =
      some (rs.filter (fun r => decide (Condition.evaluate cond r cols = pok true))) ∧
    updateTargets cond cols rs =
      some (rs.filter (fun r => decide (Condition.evaluate cond r cols = pok true))) ∧
    deleteTargets cond cols rs =
      some (rs.filter (fun r => decide (Condition.evaluate cond r cols = pok true))) ∧
    (∀ r ∈ rs, ∀ e : DBError, Condition.evaluate cond r cols = perr e →
      r ∉ rs.filter (fun r => decide (Condition.evaluate cond r cols = pok true))) := by
  have key := filterMatching_eq_filter cond cols rs hnp
  refine ⟨key, key, key, fun r _ e herr hmem => ?_⟩
  have := (List.mem_filter.mp hmem).2
  rw [herr] at this
  simp [pok, perr] at this

/-- Witness for the C8 theorem: on `WHERE a = 1` over three rows, the first
row matches, the second (whose `a` is a Boolean, so the comparison errors)
is silently demoted, and the third does not match. -/
theorem c8_where_errors_demote_rows_witness :
    selectFilter c8Cond c8Cols c8Recs = some [⟨some ⟨0, 0⟩, [Value.int 1]⟩] ∧
    Condition.evaluate c8Cond ⟨some ⟨0, 1⟩, [Value.boolean true]⟩ c8Cols =
      perr (.execution "类型不匹配，无法比较") := by
  have h := c8_where_errors_demote_rows c8Cond c8Cols c8Recs (by decide)
  refine ⟨?_, by decide⟩
  rw [h.1]
  decide

/-- Missing ORDER BY columns contribute `Equal` to the comparator: the
`continue` in `sort_records` skips them. -/
theorem recordCompare_eq_of_missing (cols : List ColumnDef) :
    ∀ items : List OrderByItem,
      (∀ item ∈ items, cols.findIdx? (fun c => c.name = item.column) = none) →
      ∀ a b : Record, recordCompare items cols a b = .eq := by
  intro items
  induction items with
  | nil => intro _ a b; rfl
  | cons item rest ih =>
    intro h a b
    have hk : keyCompare cols item a b = .eq := by
      unfold keyCompare
      rw [h item (List.mem_cons_self item rest)]
    simp [recordCompare, hk, ih (fun i hi => h i (List.mem_cons_of_mem item hi)) a b]

/-- `Pairwise` from a for-all-pairs fact. -/
theorem pairwise_of_forall_mem {α : Type} (R : α → α → Prop) :
    ∀ l : List α, (∀ a ∈ l, ∀ b ∈ l, R a b) → l.Pairwise R := by
  intro l
  induction l with
  | nil => intro _; exact .nil
  | cons x t ih =>
    intro h
    exact .cons (fun y hy => h x (.head t) y (.tail x hy))
      (ih fun a ha b hb => h a (.tail x ha) b (.tail x hb))

unseal List.merge List.mergeSort in
/-- Counterexample to claim C7: a SELECT whose ORDER BY names the
nonexistent column `missing` does *not* fail — `sort_records` builds an
Execution (not NotFound) error for the missing column and immediately
discards it with `continue` — so the statement returns a result set (here in
scan order, the missing key comparing everything equal). -/
theorem c7_counterexample_missing_order_column_succeeds :
    executeSelect c7Cols c7Recs .wildcard none (some [⟨"missing", .asc⟩]) =
      pok ⟨["id"], [[.int 2], [.int 1]]⟩ := by
  decide

/-- Claim C7 as amended: an ORDER BY key naming a column absent from the
schema is skipped — it contributes `Equal` to every comparison — and the
SELECT succeeds; when no ORDER BY key exists in the schema the rows are
returned in scan order. -/
theorem c7_missing_order_column_skipped (cols : List ColumnDef)
    (items : List OrderByItem) (recs : List Record)
    (h : ∀ item ∈ items, cols.findIdx? (fun c => c.name = item.column) = none) :
    (∀ a b : Record, recordCompare items cols a b = .eq) ∧
    sort_records recs items cols = recs ∧
    executeSelect cols recs .wildcard none (some items) =
      pok ⟨cols.map (fun c => c.name), recs.map (fun r => r.values)⟩ := by
  have hcmp := recordCompare_eq_of_missing cols items h
  have hle : ∀ a b : Record, sortLe items cols a b = true := by
    intro a b
    simp only [sortLe, hcmp a b]
    rfl
  have hsort : sort_records recs items cols = recs :=
    List.mergeSort_of_sorted
      (pairwise_of_forall_mem _ recs (fun a _ b _ => hle a b))
  refine ⟨hcmp, hsort, ?_⟩
  simp only [executeSelect, hsort]
  rfl

/-- Witness for the C7 amended theorem at the concrete two-row table. -/
theorem c7_missing_order_column_skipped_witness :
    sort_records c7Recs [⟨"missing", .asc⟩] c7Cols = c7Recs :=
  (c7_missing_order_column_skipped c7Cols [⟨"missing", .asc⟩] c7Recs
    (by decide)).2.1

/-- Three-way comparison and argument swap. -/
theorem cmpOrd_swap {α : Type} [LinearOrder α] (a b : α) :
    cmpOrd a b = (cmpOrd b a).swap := by
  unfold cmpOrd
  rcases lt_trichotomy a b with h | h | h
  · rw [if_pos h, if_neg (asymm h), if_neg (ne_of_gt h)]
    rfl
  · subst h
    simp only [lt_irrefl, if_false, if_pos rfl, if_neg (lt_irrefl a)]
    rfl
  · rw [if_neg (asymm h), if_neg (ne_of_gt h), if_pos h]
    rfl

/-- `compare_values` and argument swap. -/
theorem compare_values_swap (a b : Value) :
    compare_values a b = (compare_values b a).swap := by
  cases a <;> cases b <;> first | rfl | exact cmpOrd_swap _ _

/-- Direction application commutes with `Ordering.swap`. -/
theorem applyDirection_swap (d : SortDirection) (o : Ordering) :
    applyDirection d o.swap = (applyDirection d o).swap := by
  cases d <;> cases o <;> rfl

/-- `keyCompare` and argument swap. -/
theorem keyCompare_swap (cols : List ColumnDef) (item : OrderByItem)
    (a b : Record) : keyCompare cols item a b = (keyCompare cols item b a).swap := by
  unfold keyCompare
  cases h : cols.findIdx? (fun c => c.name = item.column) with
  | none => rfl
  | some idx =>
    show applyDirection item.direction
        (compare_values (a.values.getD idx Value.null) (b.values.getD idx Value.null)) =
      (applyDirection item.direction
        (compare_values (b.values.getD idx Value.null) (a.values.getD idx Value.null))).swap
    rw [compare_values_swap, applyDirection_swap]

/-- The full comparator and argument swap. -/
theorem recordCompare_swap (items : List OrderByItem) (cols : List ColumnDef)
    (a b : Record) : recordCompare items cols a b = (recordCompare items cols b a).swap := by
  induction items with
  | nil => rfl
  | cons item rest ih =>
    simp only [recordCompare]
    rw [keyCompare_swap cols item a b]
    cases hk : keyCompare cols item b a <;> simp [Ordering.swap, ih]

/-- The induced `≤` is total, because the comparator is antisymmetric under
argument swap. -/
theorem sortLe_total (items : List OrderByItem) (cols : List ColumnDef)
    (a b : Record) : sortLe items cols a b || sortLe items cols b a := by
  unfold sortLe
  rw [recordCompare_swap]
  cases recordCompare items cols b a <;> rfl

/-- Transport of `mergeSort` through `attach`. -/
theorem attach_mergeSort_map {α : Type} (le : α → α → Bool) (l : List α) :
    (l.attach.mergeSort (fun a b => le a.1 b.1)).map Subtype.val = l.mergeSort le := by
  have h1 : (l.attach.mergeSort (fun a b => le a.1 b.1)).map (Subtype.val) =
      (l.attach.map (Subtype.val)).mergeSort le :=
    List.map_mergeSort (fun a _ b _ => rfl)
  rw [h1, List.attach_map_subtype_val]

/-- `mergeSort` sorts, assuming totality globally but transitivity only on
the elements of the list (obtained by running the library lemma on the
attached list). -/
theorem mergeSort_pairwise_of_local {α : Type} (le : α → α → Bool) (l : List α)
    (total : ∀ a b : α, le a b || le b a)
    (htrans : ∀ a ∈ l, ∀ b ∈ l, ∀ c ∈ l,
      le a b = true → le b c = true → le a c = true) :
    (l.mergeSort le).Pairwise (fun a b => le a b = true) := by
  have h2 : (l.attach.mergeSort (fun a b => le a.1 b.1)).Pairwise
      (fun a b => le a.1 b.1 = true) :=
    List.sorted_mergeSort
      (fun a b c hab hbc => htrans a.1 a.2 b.1 b.2 c.1 c.2 hab hbc)
      (fun a b => total a.1 b.1) l.attach
  have h3 : ((l.attach.mergeSort (fun a b => le a.1 b.1)).map Subtype.val).Pairwise
      (fun a b => le a b = true) :=
    List.Pairwise.map Subtype.val (fun a b h => h) h2
  rw [attach_mergeSort_map] at h3
  exact h3

/-- `mergeSort` is stable on comparable pairs, with transitivity required
only on the elements of the list. -/
theorem mergeSort_pair_sublist_of_local {α : Type} (le : α → α → Bool)
    (l : List α) (total : ∀ a b : α, le a b || le b a)
    (htrans : ∀ a ∈ l, ∀ b ∈ l, ∀ c ∈ l,
      le a b = true → le b c = true → le a c = true)
    (a b : α) (hab : le a b = true) (hsub : [a, b].Sublist l) :
    [a, b].Sublist (l.mergeSort le) := by
  have hsub' : [a, b].Sublist (l.attach.map Subtype.val) := by
    rw [List.attach_map_subtype_val]
    exact hsub
  obtain ⟨l', hl', hmapeq⟩ := List.sublist_map_iff.mp hsub'
  match l', hmapeq with
  | [x, y], hmapeq =>
    have hx : x.val = a := by simpa using congrArg (fun t => t.headD a) hmapeq.symm
    have hy : y.val = b := by
      have := congrArg (fun t => t.getLastD b) hmapeq.symm
      simpa using this
    have hstab : [x, y].Sublist (l.attach.mergeSort (fun u v => le u.1 v.1)) :=
      List.pair_sublist_mergeSort
        (fun u v w huv hvw => htrans u.1 u.2 v.1 v.2 w.1 w.2 huv hvw)
        (fun u v => total u.1 v.1)
        (by show le x.1 y.1 = true; rw [hx, hy]; exact hab) hl'
    have hmapped := hstab.map Subtype.val
    rw [attach_mergeSort_map] at hmapped
    have hp : List.map Subtype.val [x, y] = [a, b] := by simp [hx, hy]
    rwa [hp] at hmapped

/-- Claim C9 (confirmed): `sort_records` is `records.sort_by(comparator)`, a
stable comparison sort — the result is a permutation of the scan, it is
sorted by the induced `≤` (given transitivity on the scanned rows; the
comparator is not transitive across incomparable value kinds, which compare
`Equal`), comparable pairs keep their scan order, and rows equal on all keys
keep the scan order outright.  The comparator itself collates `Null` below
every non-`Null` value, compares Int against Float numerically by promotion,
reverses a key's ordering under `Desc` (hence `Null` comes after non-`Null`
on a descending key), and falls through to the next key on `Equal`. -/
theorem c9_sort_records_stable_sort (recs : List Record)
    (items : List OrderByItem) (cols : List ColumnDef)
    (htrans : ∀ a ∈ recs, ∀ b ∈ recs, ∀ c ∈ recs,
      sortLe items cols a b = true → sortLe items cols b c = true →
      sortLe items cols a c = true) :
    (sort_records recs items cols).Perm recs ∧
    (sort_records recs items cols).Pairwise
      (fun a b => sortLe items cols a b = true) ∧
    (∀ a b : Record, [a, b].Sublist recs → sortLe items cols a b = true →
      [a, b].Sublist (sort_records recs items cols)) ∧
    ((∀ a ∈ recs, ∀ b ∈ recs, recordCompare items cols a b = .eq) →
      sort_records recs items cols = recs) ∧
    (∀ v : Value, v ≠ .null →
      compare_values .null v = .lt ∧ compare_values v .null = .gt) ∧
    (∀ (n : Int) (q : Rat),
      compare_values (.int n) (.float q) = cmpRat (n : Rat) q ∧
      compare_values (.float q) (.int n) = cmpRat q (n : Rat)) ∧
    (∀ (c : String) (a b : Record),
      keyCompare cols ⟨c, .desc⟩ a b = (keyCompare cols ⟨c, .asc⟩ a b).swap) ∧
    (∀ (item : OrderByItem) (rest : List OrderByItem) (a b : Record),
      keyCompare cols item a b = .eq →
      recordCompare (item :: rest) cols a b = recordCompare rest cols a b) := by
  refine ⟨List.mergeSort_perm recs (sortLe items cols),
    mergeSort_pairwise_of_local (sortLe items cols) recs
      (sortLe_total items cols) htrans,
    fun a b hsub hab => mergeSort_pair_sublist_of_local (sortLe items cols) recs
      (sortLe_total items cols) htrans a b hab hsub,
    fun hall => List.mergeSort_of_sorted
      (pairwise_of_forall_mem _ recs
        (fun a ha b hb => by simp only [sortLe, hall a ha b hb]; rfl)),
    fun v hv => ?_, fun n q => ⟨rfl, rfl⟩, fun c a b => ?_,
    fun item rest a b hk => by simp [recordCompare, hk]⟩
  · cases v with
    | null => exact absurd rfl hv
    | int n => exact ⟨rfl, rfl⟩
    | float q => exact ⟨rfl, rfl⟩
    | string s => exact ⟨rfl, rfl⟩
    | boolean b => exact ⟨rfl, rfl⟩
  · unfold keyCompare
    cases h : cols.findIdx? (fun col => col.name = c) with
    | none => rfl
    | some idx => rfl

/-- Witness for the C9 theorem on the S2-style scenario
(`ORDER BY score DESC` over three integer rows). -/
theorem c9_sort_records_stable_sort_witness :
    (sort_records c9Recs c9Items c9Cols).Perm c9Recs ∧
    (sort_records c9Recs c9Items c9Cols).Pairwise
      (fun a b => sortLe c9Items c9Cols a b = true) := by
  have h := c9_sort_records_stable_sort c9Recs c9Items c9Cols (by decide)
  exact ⟨h.1, h.2.1⟩

/-- Witness for the C10 theorem on a concrete one-slot page. -/
theorem c10_delete_record_vacant_slot_witness :
    ((Page.mk 0 [some [Value.int 1]] false none).delete_record ⟨0, 0⟩).1 = .ok () ∧
    (((Page.mk 0 [some [Value.int 1]] false none).delete_record ⟨0, 0⟩).2.delete_record
        ⟨0, 0⟩).1 = .error (.notFound "记录槽位 0 已被删除") := by
  have h := (c10_delete_record_vacant_slot (Page.mk 0 [some [Value.int 1]] false none)
    ⟨0, 0⟩ rfl (by decide)).2 [Value.int 1] rfl
  exact ⟨h.1, h.2⟩

end SimpleDB
